import Mathlib

/-!
# Verification of the Polyhedra-Visualizer geometry and rendering pipeline

A shallow embedding of `src/polyhedron.py`: the `Polyhedron` mesh class
(text-format loading, centroid, axis rotations), the `Drawing` render pass
(face normals, shading, painter's-algorithm depth sort, orthographic
projection) and the mouse-drag interaction handler.

Scalars are modelled as follows: the loader works over `ℚ` (Python floats on
the decimal literals appearing in mesh files are exact), while the geometry
pipeline works over `ℝ` (trigonometry).  Machine floating point is modelled
by exact real arithmetic; places where the two can differ (NaN from `0/0`)
are called out in the doc comments of the affected definitions.
-/

namespace PolyVis

/-- A 3-component coordinate, one row of the `numpy` vertex array. -/
structure Vec3 (α : Type) where
  x : α
  y : α
  z : α
deriving DecidableEq, Repr

/-- A 3×3 matrix, stored as its three rows, as built by `np.array([[...],...])`
in `rotate_x` / `rotate_y` / `rotate_z`. -/
abbrev Mat3 (α : Type) := Vec3 (Vec3 α)

/-- Row vector times matrix: `np.dot(self.vertices, rotation_matrix)` applies
this to every row of the vertex array. -/
def vecMulMat {α : Type} [CommRing α] (v : Vec3 α) (m : Mat3 α) : Vec3 α :=
  ⟨v.x * m.x.x + v.y * m.y.x + v.z * m.z.x,
   v.x * m.x.y + v.y * m.y.y + v.z * m.z.y,
   v.x * m.x.z + v.y * m.y.z + v.z * m.z.z⟩

/-- The state of a `Polyhedron` object: counts from the header line, the
vertex array, and the list of faces (0-based index tuples).  `num_vertices`
and `num_faces` are the raw Python ints read from the header. -/
structure Polyhedron (α : Type) where
  num_vertices : ℤ
  num_faces : ℤ
  vertices : List (Vec3 α)
  faces : List (List ℤ)
deriving DecidableEq, Repr

/-! ## The text-format loader (`Polyhedron.read_file`)

The file is modelled as its list of lines (newline terminators stripped;
Python's `int`/`float` ignore the trailing newline anyway, see `pyStrip`).
Python exceptions raised while parsing are modelled by `Except PyError`.
-/

/-- The Python exceptions `read_file` can raise: `ValueError` (from `int()`,
`float()`, tuple unpacking, or `np.zeros` on a negative dimension) and
`IndexError` (missing header field, or a vertex-array index out of range). -/
inductive PyError where
  | valueError : PyError
  | indexError : PyError
deriving DecidableEq, Repr

instance {ε α : Type} [DecidableEq ε] [DecidableEq α] : DecidableEq (Except ε α) := fun a b =>
  match a, b with
  | .error e, .error f =>
    if h : e = f then .isTrue (by rw [h]) else .isFalse (fun hc => by cases hc; exact h rfl)
  | .error _, .ok _ => .isFalse (fun hc => by cases hc)
  | .ok _, .error _ => .isFalse (fun hc => by cases hc)
  | .ok a, .ok b =>
    if h : a = b then .isTrue (by rw [h]) else .isFalse (fun hc => by cases hc; exact h rfl)

/-- `f.readline()`: the next line, or `""` at end of file. -/
def nextLine : List String → String × List String
  | [] => ("", [])
  | l :: ls => (l, ls)

/-- One splitting step: `str.split(sep)` on a list of characters. -/
def splitOnChar (sep : Char) : List Char → List (List Char)
  | [] => [[]]
  | c :: cs =>
    if c = sep then [] :: splitOnChar sep cs
    else
      match splitOnChar sep cs with
      | [] => [[c]]
      | h :: t => (c :: h) :: t

/-- `str.split(",")`, as used on each line of the mesh file. -/
def pySplit (s : String) (sep : Char) : List String :=
  (splitOnChar sep s.data).map List.asString

/-- Whitespace stripped by Python's `int()` and `float()` conversions. -/
def isPySpace (c : Char) : Bool :=
  c = ' ' || c = '\t' || c = '\n' || c = '\r'

/-- Leading/trailing whitespace removal, as `int()`/`float()` perform. -/
def pyStrip (cs : List Char) : List Char :=
  (((cs.dropWhile isPySpace).reverse).dropWhile isPySpace).reverse

/-- Accumulate a decimal digit string; `none` on a non-digit character. -/
def parseDigitsAux : List Char → ℕ → Option ℕ
  | [], acc => some acc
  | c :: cs, acc =>
    if 48 ≤ c.toNat ∧ c.toNat ≤ 57 then parseDigitsAux cs (acc * 10 + (c.toNat - 48))
    else none

/-- A nonempty all-digit string to its value. -/
def parseDigits : List Char → Option ℕ
  | [] => none
  | cs => parseDigitsAux cs 0

/-- Consume an optional leading sign. -/
def splitSign : List Char → ℤ × List Char
  | '-' :: rest => (-1, rest)
  | '+' :: rest => (1, rest)
  | cs => (1, cs)

/-- Python `int(s)` on a decimal string: optional surrounding whitespace,
optional sign, decimal digits; `none` models a raised `ValueError`. -/
def pyParseInt (s : String) : Option ℤ :=
  match splitSign (pyStrip s.data) with
  | (sg, ds) => (parseDigits ds).map (fun n => sg * (n : ℤ))

/-- Python `float(s)` on a plain decimal literal (optional surrounding
whitespace, optional sign, digits with an optional decimal point); the value
of such a literal is exact as a rational.  `none` models `ValueError`. -/
def pyParseFloat (s : String) : Option ℚ :=
  match splitSign (pyStrip s.data) with
  | (sg, ds) =>
    match splitOnChar '.' ds with
    | [w] => (parseDigits w).map (fun n => (sg : ℚ) * (n : ℚ))
    | [[], []] => none
    | [[], f] => (parseDigits f).map (fun n => (sg : ℚ) * ((n : ℚ) / 10 ^ f.length))
    | [w, []] => (parseDigits w).map (fun n => (sg : ℚ) * (n : ℚ))
    | [w, f] =>
      match parseDigits w, parseDigits f with
      | some wn, some fn => some ((sg : ℚ) * ((wn : ℚ) + (fn : ℚ) / 10 ^ f.length))
      | _, _ => none
    | _ => none

/-- `self.vertices[i] = v` on a numpy array of `l.length` rows: indices in
`[0, len)` address from the front, indices in `[-len, 0)` address from the
end, and anything else raises `IndexError` (modelled by `none`). -/
def numpySet {α : Type} (l : List α) (i : ℤ) (v : α) : Option (List α) :=
  if 0 ≤ i ∧ i < (l.length : ℤ) then some (l.set i.toNat v)
  else if -(l.length : ℤ) ≤ i ∧ i < 0 then some (l.set ((l.length : ℤ) + i).toNat v)
  else none

/-- The vertex-reading loop of `read_file`: reads `count` lines of the form
`id,x,y,z` and stores each coordinate triple at row `int(id) - 1` of the
vertex array (`numpy` negative indices address from the end). -/
def readVertexLines (count : ℕ) (verts : List (Vec3 ℚ)) (lines : List String) :
    Except PyError (List (Vec3 ℚ) × List String) :=
  match count with
  | 0 => .ok (verts, lines)
  | n + 1 =>
    match nextLine lines with
    | (line, rest) =>
      match pySplit line ',' with
      | [i, x, y, z] =>
        match pyParseInt i, pyParseFloat x, pyParseFloat y, pyParseFloat z with
        | some idv, some xv, some yv, some zv =>
          match numpySet verts (idv - 1) ⟨xv, yv, zv⟩ with
          | some verts2 => readVertexLines n verts2 rest
          | none => .error .indexError
        | _, _, _, _ => .error .valueError
      | _ => .error .valueError

/-- `[int(v) for v in fields]`, left to right; `none` models the first
`ValueError` raised. -/
def parseIntList : List String → Option (List ℤ)
  | [] => some []
  | s :: ss =>
    match pyParseInt s, parseIntList ss with
    | some v, some vs => some (v :: vs)
    | _, _ => none

/-- The face-reading loop of `read_file`: reads `count` lines, each a
comma-separated list of 1-based vertex ids, and stores `[int(v) - 1 for v in
line.split(",")]`.  Note that no range or length check is performed on the
ids. -/
def readFaceLines (count : ℕ) (lines : List String) :
    Except PyError (List (List ℤ)) :=
  match count with
  | 0 => .ok []
  | n + 1 =>
    match nextLine lines with
    | (line, rest) =>
      match parseIntList (pySplit line ',') with
      | some ids =>
        match readFaceLines n rest with
        | .ok faces => .ok ((ids.map (fun v => v - 1)) :: faces)
        | .error e => .error e
      | none => .error .valueError

/-- `Polyhedron.read_file`: parse the header `V,F`, allocate `np.zeros((V,3))`
(raising `ValueError` if `V < 0`), then read `V` vertex lines and `F` face
lines.  Python evaluation order is preserved: `int(first_line[0])` runs before
`first_line[1]` is accessed. -/
def read_file (lines : List String) : Except PyError (Polyhedron ℚ) :=
  match nextLine lines with
  | (l1, rest) =>
    match pySplit l1 ',' with
    | [] => .error .indexError
    | c0 :: restFields =>
      match pyParseInt c0 with
      | none => .error .valueError
      | some nv =>
        match restFields with
        | [] => .error .indexError
        | c1 :: _ =>
          match pyParseInt c1 with
          | none => .error .valueError
          | some nf =>
            if nv < 0 then .error .valueError
            else
              match readVertexLines nv.toNat (List.replicate nv.toNat ⟨0, 0, 0⟩) rest with
              | .error e => .error e
              | .ok (verts, rest2) =>
                match readFaceLines nf.toNat rest2 with
                | .error e => .error e
                | .ok faces => .ok ⟨nv, nf, verts, faces⟩

/-! ## Rotation (`Polyhedron.rotate_x` / `rotate_y` / `rotate_z`)

Each builds a 3×3 matrix from `np.cos`/`np.sin` of the angle (radians) and
overwrites the vertex array with `np.dot(self.vertices, rotation_matrix)`,
i.e. each row vector `v` becomes `v ⬝ M`.
-/

/-- The matrix literal built inside `rotate_x`. -/
noncomputable def rotation_matrix_x (angle : ℝ) : Mat3 ℝ :=
  ⟨⟨1, 0, 0⟩,
   ⟨0, Real.cos angle, -Real.sin angle⟩,
   ⟨0, Real.sin angle, Real.cos angle⟩⟩

/-- The matrix literal built inside `rotate_y`. -/
noncomputable def rotation_matrix_y (angle : ℝ) : Mat3 ℝ :=
  ⟨⟨Real.cos angle, 0, Real.sin angle⟩,
   ⟨0, 1, 0⟩,
   ⟨-Real.sin angle, 0, Real.cos angle⟩⟩

/-- The matrix literal built inside `rotate_z`. -/
noncomputable def rotation_matrix_z (angle : ℝ) : Mat3 ℝ :=
  ⟨⟨Real.cos angle, -Real.sin angle, 0⟩,
   ⟨Real.sin angle, Real.cos angle, 0⟩,
   ⟨0, 0, 1⟩⟩

/-- `Polyhedron.rotate_x`: overwrite every vertex `v` with `v ⬝ Rx(angle)`. -/
noncomputable def rotate_x (angle : ℝ) (P : Polyhedron ℝ) : Polyhedron ℝ :=
  { P with vertices := P.vertices.map (fun v => vecMulMat v (rotation_matrix_x angle)) }

/-- `Polyhedron.rotate_y`: overwrite every vertex `v` with `v ⬝ Ry(angle)`. -/
noncomputable def rotate_y (angle : ℝ) (P : Polyhedron ℝ) : Polyhedron ℝ :=
  { P with vertices := P.vertices.map (fun v => vecMulMat v (rotation_matrix_y angle)) }

/-- `Polyhedron.rotate_z`: overwrite every vertex `v` with `v ⬝ Rz(angle)`. -/
noncomputable def rotate_z (angle : ℝ) (P : Polyhedron ℝ) : Polyhedron ℝ :=
  { P with vertices := P.vertices.map (fun v => vecMulMat v (rotation_matrix_z angle)) }

/-- Modelled from the spec: `Rx(a) = [[1,0,0],[0,cos a,-sin a],[0,sin a,cos a]]`,
the standard right-handed rotation matrix about the x-axis for row vectors. -/
noncomputable def spec_Rx (a : ℝ) : Mat3 ℝ :=
  ⟨⟨1, 0, 0⟩, ⟨0, Real.cos a, -Real.sin a⟩, ⟨0, Real.sin a, Real.cos a⟩⟩

/-- Modelled from the spec: `Ry(a) = [[cos a,0,sin a],[0,1,0],[-sin a,0,cos a]]`. -/
noncomputable def spec_Ry (a : ℝ) : Mat3 ℝ :=
  ⟨⟨Real.cos a, 0, Real.sin a⟩, ⟨0, 1, 0⟩, ⟨-Real.sin a, 0, Real.cos a⟩⟩

/-- Modelled from the spec: `Rz(a) = [[cos a,-sin a,0],[sin a,cos a,0],[0,0,1]]`. -/
noncomputable def spec_Rz (a : ℝ) : Mat3 ℝ :=
  ⟨⟨Real.cos a, -Real.sin a, 0⟩, ⟨Real.sin a, Real.cos a, 0⟩, ⟨0, 0, 1⟩⟩

/-! ## The render pass (`Drawing.draw_polyhedron`) -/

instance {α : Type} [Sub α] : Sub (Vec3 α) :=
  ⟨fun a b => ⟨a.x - b.x, a.y - b.y, a.z - b.z⟩⟩

/-- `np.cross` of two 3-vectors. -/
def cross (a b : Vec3 ℝ) : Vec3 ℝ :=
  ⟨a.y * b.z - a.z * b.y, a.z * b.x - a.x * b.z, a.x * b.y - a.y * b.x⟩

/-- `np.dot` of two 3-vectors. -/
def dot3 (a b : Vec3 ℝ) : ℝ :=
  a.x * b.x + a.y * b.y + a.z * b.z

/-- `np.linalg.norm` of a 3-vector. -/
noncomputable def norm3 (v : Vec3 ℝ) : ℝ :=
  Real.sqrt (v.x ^ 2 + v.y ^ 2 + v.z ^ 2)

/-- `np.clip(x, lo, hi)`. -/
noncomputable def clip (x lo hi : ℝ) : ℝ :=
  min (max x lo) hi

/-- The viewing axis `np.array([0, 0, 1])`. -/
def z_axis : Vec3 ℝ :=
  ⟨0, 0, 1⟩

/-- Python reading `l[i]`: indices in `[0, len)` address from the front and
indices in `[-len, 0)` from the end.  Anything else raises `IndexError` in
Python; the model returns the default `d` there, and every claim only
evaluates in-range accesses. -/
def pyIdx {α : Type} (l : List α) (i : ℤ) (d : α) : α :=
  if 0 ≤ i ∧ i < (l.length : ℤ) then l.getD i.toNat d
  else if -(l.length : ℤ) ≤ i ∧ i < 0 then l.getD ((l.length : ℤ) + i).toNat d
  else d

/-- `self.polyhedron.vertices[i]`. -/
def vertexAt (P : Polyhedron ℝ) (i : ℤ) : Vec3 ℝ :=
  pyIdx P.vertices i ⟨0, 0, 0⟩

/-- The surface normal of a face: `np.cross(vertices[face[1]] - vertices[face[0]],
vertices[face[2]] - vertices[face[1]])`. -/
def face_normal (P : Polyhedron ℝ) (face : List ℤ) : Vec3 ℝ :=
  cross (vertexAt P (pyIdx face 1 0) - vertexAt P (pyIdx face 0 0))
    (vertexAt P (pyIdx face 2 0) - vertexAt P (pyIdx face 1 0))

/-- `normal = normal / np.linalg.norm(normal)`.  For a degenerate face the
norm is `0`; Python then produces NaN components (`0.0/0.0`) while this real
model has `x / 0 = 0` — the divergence is recorded at the claim about
degenerate faces. -/
noncomputable def unit_normal (P : Polyhedron ℝ) (face : List ℤ) : Vec3 ℝ :=
  let n := face_normal P face
  ⟨n.x / norm3 n, n.y / norm3 n, n.z / norm3 n⟩

/-- Lines 207–209 of the source: fold the arccos value into `[0, π/2]` and
flip it so that `0` is maximal obliqueness and `π/2` is face-on. -/
noncomputable def fold_angle (a : ℝ) : ℝ :=
  Real.pi / 2 - (if Real.pi / 2 < a then Real.pi - a else a)

/-- The shading angle of a face:
`arccos(clip(np.dot(normal, [0,0,1]), -1, 1))` folded by `fold_angle`. -/
noncomputable def face_angle (P : Polyhedron ℝ) (face : List ℤ) : ℝ :=
  fold_angle (Real.arccos (clip (dot3 (unit_normal P face) z_axis) (-1) 1))

/-- Python `int()` applied to a float: truncation toward zero. -/
noncomputable def pyToInt (x : ℝ) : ℤ :=
  if 0 ≤ x then ⌊x⌋ else ⌈x⌉

/-- `self.canvas.winfo_rgb("#00005F")`: Tk scales each 8-bit channel to
16 bits (multiplies by 257), giving `(0, 0, 0x5F5F)`. -/
def r_min : ℤ := 0

def g_min : ℤ := 0

def b_min : ℤ := 24415

/-- `self.canvas.winfo_rgb("#0000FF") = (0, 0, 0xFFFF)`. -/
def r_max : ℤ := 0

def g_max : ℤ := 0

def b_max : ℤ := 65535

/-- The three `int(c_min + (c_max - c_min) * angle / (np.pi / 2))` channel
values computed for a face (the source then formats them as a hex string). -/
noncomputable def face_color (P : Polyhedron ℝ) (face : List ℤ) : ℤ × ℤ × ℤ :=
  (pyToInt ((r_min : ℝ) + ((r_max : ℝ) - (r_min : ℝ)) * face_angle P face / (Real.pi / 2)),
   pyToInt ((g_min : ℝ) + ((g_max : ℝ) - (g_min : ℝ)) * face_angle P face / (Real.pi / 2)),
   pyToInt ((b_min : ℝ) + ((b_max : ℝ) - (b_min : ℝ)) * face_angle P face / (Real.pi / 2)))

/-- `Polyhedron.calculate_centroid`: componentwise mean of the face's vertex
positions (summing loop followed by division by `len(face)`). -/
noncomputable def calculate_centroid (P : Polyhedron ℝ) (face : List ℤ) : Vec3 ℝ :=
  ⟨(face.map (fun i => (vertexAt P i).x)).sum / (face.length : ℝ),
   (face.map (fun i => (vertexAt P i).y)).sum / (face.length : ℝ),
   (face.map (fun i => (vertexAt P i).z)).sum / (face.length : ℝ)⟩

/-- One element of the `z_ordered_faces` list: the Python tuple
`(z_centroid, face, color)`. -/
abbrev Entry : Type := ℝ × List ℤ × ℤ × ℤ × ℤ

/-- The unsorted `z_ordered_faces` list built by the render loop. -/
noncomputable def z_ordered_faces (P : Polyhedron ℝ) : List Entry :=
  P.faces.map (fun face => ((calculate_centroid P face).z, face, face_color P face))

/-- Python comparison `<` on tuples of ints (a strict prefix is smaller,
otherwise the first differing position decides). -/
def intListLtB : List ℤ → List ℤ → Bool
  | [], [] => false
  | [], _ :: _ => true
  | _ :: _, [] => false
  | a :: as, b :: bs =>
    if a < b then true else if a = b then intListLtB as bs else false

/-- Python comparison `<` on the color component.  The source compares the
formatted strings `f"#\x7br:04x\x7d..."`; for the 16-bit channel values
produced here the fixed-width lowercase hex comparison coincides with the
lexicographic numeric comparison. -/
def colorLtB (c d : ℤ × ℤ × ℤ) : Bool :=
  if c.1 < d.1 then true
  else if c.1 = d.1 then
    if c.2.1 < d.2.1 then true
    else if c.2.1 = d.2.1 then decide (c.2.2 < d.2.2)
    else false
  else false

/-- Python comparison `<` on the `(z_centroid, face, color)` tuples that
`z_ordered_faces.sort(reverse=True)` uses. -/
def entryLt (a b : Entry) : Prop :=
  a.1 < b.1 ∨
    (a.1 = b.1 ∧
      (intListLtB a.2.1 b.2.1 = true ∨ (a.2.1 = b.2.1 ∧ colorLtB a.2.2 b.2.2 = true)))

noncomputable instance : DecidableRel entryLt := fun a b => by
  unfold entryLt; infer_instance

/-- `z_ordered_faces.sort(reverse=True)`: Python's stable descending sort.
An element is inserted in front of the first element it is not
tuple-smaller than, so earlier faces stay in front of equal ones while any
strictly tuple-larger face moves forward. -/
noncomputable def pySortDesc (l : List Entry) : List Entry :=
  List.insertionSort (fun a b => ¬ entryLt a b) l

/-- The depth-ordered draw list of a render pass (the order in which
`draw_polyhedron` places the faces on the canvas). -/
noncomputable def draw_list (P : Polyhedron ℝ) : List Entry :=
  pySortDesc (z_ordered_faces P)

/-! ## Projection and the canvas geometry -/

/-- `Drawing.__init__` line 143: the projection origin is the canvas center
`[width / 2, height / 2]`. -/
noncomputable def canvas_origin (width height : ℝ) : ℝ × ℝ :=
  (width / 2, height / 2)

/-- `draw_polyhedron` line 191: `scaling_factor = self.origin[1] / 2`. -/
noncomputable def scaling_factor (origin_y : ℝ) : ℝ :=
  origin_y / 2

/-- `Drawing.project`: orthographic projection of a vertex,
`(origin.x + x * scaling_factor, origin.y + y * scaling_factor)`. -/
noncomputable def project (origin : ℝ × ℝ) (vertex : Vec3 ℝ) (sf : ℝ) : ℝ × ℝ :=
  (origin.1 + vertex.x * sf, origin.2 + vertex.y * sf)

/-- The polygons actually placed on the canvas by `draw_polyhedron`: for each
entry of the sorted draw list, the projected vertex coordinates and the fill
color. -/
noncomputable def draw_polyhedron (origin : ℝ × ℝ) (P : Polyhedron ℝ) :
    List (List (ℝ × ℝ) × (ℤ × ℤ × ℤ)) :=
  (draw_list P).map
    (fun e => ((e.2.1).map (fun i => project origin (vertexAt P i) (scaling_factor origin.2)), e.2.2))

/-! ## Mouse interaction (`Drawing.mouse_click` / `Drawing.mouse_drag`) -/

/-- The mutable `Drawing` state the event handlers touch: the projection
origin, the drag anchor `(start_x, start_y)`, and the current mesh. -/
structure Drawing where
  origin : ℝ × ℝ
  start_x : ℝ
  start_y : ℝ
  polyhedron : Polyhedron ℝ

/-- `Drawing.mouse_click`: record the anchor point. -/
def mouse_click (d : Drawing) (x y : ℝ) : Drawing :=
  { d with start_x := x, start_y := y }

/-- `Drawing.mouse_drag`: compute `(dx, dy) = (start_x - x, start_y - y)`,
apply `rotate_x(dy * 0.001)` then `rotate_y(-dx * 0.001)`, redraw the
polyhedron (returned as the new canvas content), and move the anchor to
`(x, y)`. -/
noncomputable def mouse_drag (d : Drawing) (x y : ℝ) :
    Drawing × List (List (ℝ × ℝ) × (ℤ × ℤ × ℤ)) :=
  let dx := d.start_x - x
  let dy := d.start_y - y
  let p := rotate_y (-dx * 0.001) (rotate_x (dy * 0.001) d.polyhedron)
  (⟨d.origin, x, y, p⟩, draw_polyhedron d.origin p)

/-! ## Concrete meshes used by witnesses and counterexamples -/

/-- A mesh with two coplanar faces over the same three vertices in opposite
orders: both have centroid `z = 0`, so they tie on the depth key. -/
noncomputable def exMesh : Polyhedron ℝ :=
  ⟨3, 2, [⟨0, 0, 0⟩, ⟨1, 0, 0⟩, ⟨0, 1, 0⟩], [[0, 1, 2], [0, 2, 1]]⟩

/-- A mesh whose single face has its three vertices collinear: the cross
product of its edge vectors is the zero vector. -/
noncomputable def degMesh : Polyhedron ℝ :=
  ⟨3, 1, [⟨0, 0, 0⟩, ⟨1, 0, 0⟩, ⟨2, 0, 0⟩], [[0, 1, 2]]⟩

/-! ## Helper lemmas -/

theorem data_asString (cs : List Char) : (List.asString cs).data = cs :=
  rfl

theorem vecMulMat_rotx_rotx_neg (a : ℝ) (v : Vec3 ℝ) :
    vecMulMat (vecMulMat v (rotation_matrix_x a)) (rotation_matrix_x (-a)) = v := by
  cases v with
  | mk x y z =>
    simp only [vecMulMat, rotation_matrix_x, Real.cos_neg, Real.sin_neg, Vec3.mk.injEq]
    refine ⟨by ring, ?_, ?_⟩
    · linear_combination y * Real.sin_sq_add_cos_sq a
    · linear_combination z * Real.sin_sq_add_cos_sq a

theorem intListLtB_irrefl : ∀ x : List ℤ, intListLtB x x = false := by
  intro x
  induction x with
  | nil => rfl
  | cons a as ih => simp [intListLtB, ih]

theorem intListLtB_asymm : ∀ x y : List ℤ, intListLtB x y = true → intListLtB y x = false := by
  intro x
  induction x with
  | nil =>
    intro y h
    cases y with
    | nil => simp [intListLtB] at h
    | cons b bs => rfl
  | cons a as ih =>
    intro y h
    cases y with
    | nil => simp [intListLtB] at h
    | cons b bs =>
      simp only [intListLtB] at h ⊢
      by_cases hab : a < b
      · have h1 : ¬ b < a := by omega
        have h2 : ¬ b = a := by omega
        simp [h1, h2]
      · by_cases heq : a = b
        · subst heq
          rw [if_neg hab, if_pos rfl] at h
          simp [hab, ih bs h]
        · simp [hab, heq] at h

theorem intListLtB_trans :
    ∀ x y z : List ℤ, intListLtB x y = true → intListLtB y z = true → intListLtB x z = true := by
  intro x
  induction x with
  | nil =>
    intro y z h1 h2
    cases y with
    | nil => simp [intListLtB] at h1
    | cons b bs =>
      cases z with
      | nil => simp [intListLtB] at h2
      | cons c cs => rfl
  | cons a as ih =>
    intro y z h1 h2
    cases y with
    | nil => simp [intListLtB] at h1
    | cons b bs =>
      cases z with
      | nil => simp [intListLtB] at h2
      | cons c cs =>
        simp only [intListLtB] at h1 h2 ⊢
        by_cases hab : a < b <;> by_cases hbc : b < c
        · have hac : a < c := by omega
          simp [hac]
        · by_cases hbec : b = c
          · have hac : a < c := by omega
            simp [hac]
          · simp [hbc, hbec] at h2
        · by_cases haeb : a = b
          · have hac : a < c := by omega
            simp [hac]
          · simp [hab, haeb] at h1
        · by_cases haeb : a = b
          · by_cases hbec : b = c
            · have hac : ¬ a < c := by omega
              have haec : a = c := by omega
              simp [hab, haeb] at h1
              simp [hbc, hbec] at h2
              simp [hac, haec, ih bs cs h1 h2]
            · simp [hbc, hbec] at h2
          · simp [hab, haeb] at h1

theorem intListLtB_trichotomy :
    ∀ x y : List ℤ, intListLtB x y = true ∨ x = y ∨ intListLtB y x = true := by
  intro x
  induction x with
  | nil =>
    intro y
    cases y with
    | nil => exact Or.inr (Or.inl rfl)
    | cons b bs => exact Or.inl rfl
  | cons a as ih =>
    intro y
    cases y with
    | nil => exact Or.inr (Or.inr rfl)
    | cons b bs =>
      rcases lt_trichotomy a b with h | h | h
      · exact Or.inl (by simp [intListLtB, h])
      · subst h
        rcases ih bs with h2 | h2 | h2
        · exact Or.inl (by simp [intListLtB, h2])
        · exact Or.inr (Or.inl (by rw [h2]))
        · exact Or.inr (Or.inr (by simp [intListLtB, h2]))
      · exact Or.inr (Or.inr (by simp [intListLtB, h]))

theorem colorLtB_iff (c d : ℤ × ℤ × ℤ) :
    colorLtB c d = true ↔
      (c.1 < d.1 ∨ (c.1 = d.1 ∧ (c.2.1 < d.2.1 ∨ (c.2.1 = d.2.1 ∧ c.2.2 < d.2.2)))) := by
  rcases c with ⟨c1, c2, c3⟩
  rcases d with ⟨d1, d2, d3⟩
  simp only [colorLtB]
  split_ifs with h1 h2 h3 h4 <;> simp <;> omega

theorem entryLt_asymm {a b : Entry} (h : entryLt a b) : ¬ entryLt b a := by
  rcases a with ⟨az, af, ac⟩
  rcases b with ⟨bz, bf, bc⟩
  intro hc
  rcases h with h1 | ⟨hz, h2⟩ <;> rcases hc with hc1 | ⟨hcz, hc2⟩
  · exact lt_irrefl _ (lt_trans h1 hc1)
  · exact absurd h1 (by rw [hcz]; exact lt_irrefl _)
  · exact absurd hc1 (by rw [hz]; exact lt_irrefl _)
  · rcases h2 with hf | ⟨hfe, hcol⟩ <;> rcases hc2 with hcf | ⟨hcfe, hccol⟩
    · rw [intListLtB_asymm _ _ hf] at hcf
      simp at hcf
    · rw [hcfe, intListLtB_irrefl] at hf
      simp at hf
    · rw [hfe, intListLtB_irrefl] at hcf
      simp at hcf
    · rw [colorLtB_iff] at hcol hccol
      omega

theorem entryLt_trans {a b c : Entry} (h1 : entryLt a b) (h2 : entryLt b c) : entryLt a c := by
  rcases a with ⟨az, af, ac⟩
  rcases b with ⟨bz, bf, bc⟩
  rcases c with ⟨cz, cf, cc⟩
  rcases h1 with hz1 | ⟨he1, hr1⟩ <;> rcases h2 with hz2 | ⟨he2, hr2⟩
  · exact Or.inl (lt_trans hz1 hz2)
  · exact Or.inl (by rw [← he2]; exact hz1)
  · exact Or.inl (by rw [he1]; exact hz2)
  · refine Or.inr ⟨he1.trans he2, ?_⟩
    rcases hr1 with hf1 | ⟨hfe1, hc1⟩ <;> rcases hr2 with hf2 | ⟨hfe2, hc2⟩
    · exact Or.inl (intListLtB_trans _ _ _ hf1 hf2)
    · exact Or.inl (by rw [← hfe2]; exact hf1)
    · exact Or.inl (by rw [hfe1]; exact hf2)
    · refine Or.inr ⟨hfe1.trans hfe2, ?_⟩
      rw [colorLtB_iff] at hc1 hc2 ⊢
      omega

theorem entryLt_trichotomy (a b : Entry) : entryLt a b ∨ a = b ∨ entryLt b a := by
  rcases a with ⟨az, af, ac⟩
  rcases b with ⟨bz, bf, bc⟩
  rcases lt_trichotomy az bz with hz | hz | hz
  · exact Or.inl (Or.inl hz)
  · rcases intListLtB_trichotomy af bf with hf | hf | hf
    · exact Or.inl (Or.inr ⟨hz, Or.inl hf⟩)
    · have hcc : colorLtB ac bc = true ∨ ac = bc ∨ colorLtB bc ac = true := by
        rw [colorLtB_iff, colorLtB_iff]
        rcases ac with ⟨x1, x2, x3⟩
        rcases bc with ⟨y1, y2, y3⟩
        simp only [Prod.mk.injEq]
        omega
      rcases hcc with h | h | h
      · exact Or.inl (Or.inr ⟨hz, Or.inr ⟨hf, h⟩⟩)
      · exact Or.inr (Or.inl (by rw [hz, hf, h]))
      · exact Or.inr (Or.inr (Or.inr ⟨hz.symm, Or.inr ⟨hf.symm, h⟩⟩))
    · exact Or.inr (Or.inr (Or.inr ⟨hz.symm, Or.inl hf⟩))
  · exact Or.inr (Or.inr (Or.inl hz))

/-! ## Claim theorems -/

theorem vec3_sub_def {α : Type} [Sub α] (a b : Vec3 α) :
    a - b = ⟨a.x - b.x, a.y - b.y, a.z - b.z⟩ :=
  rfl

theorem vertexAt_exMesh_0 : vertexAt exMesh 0 = ⟨0, 0, 0⟩ := rfl

theorem vertexAt_exMesh_1 : vertexAt exMesh 1 = ⟨1, 0, 0⟩ := rfl

theorem vertexAt_exMesh_2 : vertexAt exMesh 2 = ⟨0, 1, 0⟩ := rfl

theorem vertexAt_degMesh_0 : vertexAt degMesh 0 = ⟨0, 0, 0⟩ := rfl

theorem vertexAt_degMesh_1 : vertexAt degMesh 1 = ⟨1, 0, 0⟩ := rfl

theorem vertexAt_degMesh_2 : vertexAt degMesh 2 = ⟨2, 0, 0⟩ := rfl

theorem pyIdx_012_0 : pyIdx ([0, 1, 2] : List ℤ) 0 0 = 0 := rfl

theorem pyIdx_012_1 : pyIdx ([0, 1, 2] : List ℤ) 1 0 = 1 := rfl

theorem pyIdx_012_2 : pyIdx ([0, 1, 2] : List ℤ) 2 0 = 2 := rfl

theorem pyIdx_021_0 : pyIdx ([0, 2, 1] : List ℤ) 0 0 = 0 := rfl

theorem pyIdx_021_1 : pyIdx ([0, 2, 1] : List ℤ) 1 0 = 2 := rfl

theorem pyIdx_021_2 : pyIdx ([0, 2, 1] : List ℤ) 2 0 = 1 := rfl

theorem face_normal_exMesh1 : face_normal exMesh [0, 1, 2] = ⟨0, 0, 1⟩ := by
  simp only [face_normal, pyIdx_012_0, pyIdx_012_1, pyIdx_012_2,
    vertexAt_exMesh_0, vertexAt_exMesh_1, vertexAt_exMesh_2]
  norm_num [cross, vec3_sub_def]

theorem face_normal_exMesh2 : face_normal exMesh [0, 2, 1] = ⟨0, 0, -1⟩ := by
  simp only [face_normal, pyIdx_021_0, pyIdx_021_1, pyIdx_021_2,
    vertexAt_exMesh_0, vertexAt_exMesh_1, vertexAt_exMesh_2]
  norm_num [cross, vec3_sub_def]

theorem unit_normal_exMesh1 : unit_normal exMesh [0, 1, 2] = ⟨0, 0, 1⟩ := by
  simp only [unit_normal, face_normal_exMesh1]
  norm_num [norm3]

theorem unit_normal_exMesh2 : unit_normal exMesh [0, 2, 1] = ⟨0, 0, -1⟩ := by
  simp only [unit_normal, face_normal_exMesh2]
  norm_num [norm3]

theorem face_angle_exMesh1 : face_angle exMesh [0, 1, 2] = Real.pi / 2 := by
  have h1 : dot3 (unit_normal exMesh [0, 1, 2]) z_axis = 1 := by
    rw [unit_normal_exMesh1]
    norm_num [dot3, z_axis]
  have hclip : clip 1 (-1) 1 = 1 := by norm_num [clip]
  rw [face_angle, h1, hclip, Real.arccos_one, fold_angle,
    if_neg (not_lt.mpr (by positivity : (0 : ℝ) ≤ Real.pi / 2))]
  ring

theorem face_angle_exMesh2 : face_angle exMesh [0, 2, 1] = Real.pi / 2 := by
  have h1 : dot3 (unit_normal exMesh [0, 2, 1]) z_axis = -1 := by
    rw [unit_normal_exMesh2]
    norm_num [dot3, z_axis]
  have hclip : clip (-1) (-1) 1 = -1 := by norm_num [clip]
  rw [face_angle, h1, hclip, Real.arccos_neg_one, fold_angle,
    if_pos (by linarith [Real.pi_pos] : Real.pi / 2 < Real.pi)]
  ring

theorem face_color_of_half_pi (P : Polyhedron ℝ) (f : List ℤ)
    (h : face_angle P f = Real.pi / 2) : face_color P f = (0, 0, 65535) := by
  have hd : Real.pi / 2 ≠ 0 := by positivity
  have e1 : ((r_min : ℝ) + ((r_max : ℝ) - (r_min : ℝ)) * (Real.pi / 2) / (Real.pi / 2)) = 0 := by
    rw [mul_div_assoc, div_self hd]
    norm_num [r_min, r_max]
  have e2 : ((g_min : ℝ) + ((g_max : ℝ) - (g_min : ℝ)) * (Real.pi / 2) / (Real.pi / 2)) = 0 := by
    rw [mul_div_assoc, div_self hd]
    norm_num [g_min, g_max]
  have e3 : ((b_min : ℝ) + ((b_max : ℝ) - (b_min : ℝ)) * (Real.pi / 2) / (Real.pi / 2)) = 65535 := by
    rw [mul_div_assoc, div_self hd]
    norm_num [b_min, b_max]
  rw [face_color, h, e1, e2, e3]
  norm_num [pyToInt]

theorem centroid_z_exMesh1 : (calculate_centroid exMesh [0, 1, 2]).z = 0 := by
  simp only [calculate_centroid, List.map_cons, List.map_nil,
    vertexAt_exMesh_0, vertexAt_exMesh_1, vertexAt_exMesh_2]
  norm_num

theorem centroid_z_exMesh2 : (calculate_centroid exMesh [0, 2, 1]).z = 0 := by
  simp only [calculate_centroid, List.map_cons, List.map_nil,
    vertexAt_exMesh_0, vertexAt_exMesh_1, vertexAt_exMesh_2]
  norm_num

theorem z_ordered_faces_exMesh :
    z_ordered_faces exMesh =
      [((0 : ℝ), [0, 1, 2], ((0 : ℤ), (0 : ℤ), (65535 : ℤ))),
       ((0 : ℝ), [0, 2, 1], ((0 : ℤ), (0 : ℤ), (65535 : ℤ)))] := by
  have hf : exMesh.faces = [[0, 1, 2], [0, 2, 1]] := rfl
  rw [z_ordered_faces, hf]
  simp only [List.map_cons, List.map_nil]
  rw [centroid_z_exMesh1, centroid_z_exMesh2,
    face_color_of_half_pi _ _ face_angle_exMesh1, face_color_of_half_pi _ _ face_angle_exMesh2]

/-- C1: `rotate_x`, `rotate_y` and `rotate_z` replace each vertex `v` (a row
vector) by `v` times the spec's standard right-handed rotation matrix for the
respective axis (the angle being the radian argument of `cos`/`sin`), leaving
the counts and faces untouched and overwriting the stored vertices. -/
theorem rotations_apply_spec_matrices (P : Polyhedron ℝ) (a : ℝ) :
    rotate_x a P = { P with vertices := P.vertices.map (fun v => vecMulMat v (spec_Rx a)) } ∧
    rotate_y a P = { P with vertices := P.vertices.map (fun v => vecMulMat v (spec_Ry a)) } ∧
    rotate_z a P = { P with vertices := P.vertices.map (fun v => vecMulMat v (spec_Rz a)) } :=
  ⟨rfl, rfl, rfl⟩

/-- C8: `rotate_x a` followed by `rotate_x (-a)` restores the polyhedron
exactly (in the real-number model), for any mesh and any angle. -/
theorem rotate_x_then_rotate_x_neg (P : Polyhedron ℝ) (a : ℝ) :
    rotate_x (-a) (rotate_x a P) = P := by
  cases P with
  | mk nv nf verts faces =>
    show Polyhedron.mk nv nf ((verts.map _).map _) faces = Polyhedron.mk nv nf verts faces
    rw [List.map_map]
    have h : ((fun v => vecMulMat v (rotation_matrix_x (-a))) ∘
        fun v => vecMulMat v (rotation_matrix_x a)) = id :=
      funext fun v => vecMulMat_rotx_rotx_neg a v
    rw [h, List.map_id]

/-- C9: on a drag event at `(x, y)` the handler computes
`(dx, dy) = (start_x - x, start_y - y)`, applies `rotate_x (dy * 0.001)` then
`rotate_y (-dx * 0.001)` (equivalently each vertex is multiplied by
`Rx(dy k) ⬝ Ry(-dx k)` with `k = 0.001`), redraws the full draw list of the
rotated mesh, and moves the anchor to `(x, y)`. -/
theorem mouse_drag_rotates_and_redraws (d : Drawing) (x y : ℝ) :
    mouse_drag d x y =
      (⟨d.origin, x, y,
          rotate_y (-(d.start_x - x) * 0.001)
            (rotate_x ((d.start_y - y) * 0.001) d.polyhedron)⟩,
        draw_polyhedron d.origin
          (rotate_y (-(d.start_x - x) * 0.001)
            (rotate_x ((d.start_y - y) * 0.001) d.polyhedron))) ∧
    (mouse_drag d x y).1.polyhedron.vertices =
      d.polyhedron.vertices.map
        (fun v => vecMulMat (vecMulMat v (spec_Rx ((d.start_y - y) * 0.001)))
          (spec_Ry (-(d.start_x - x) * 0.001))) := by
  refine ⟨rfl, ?_⟩
  show (rotate_y _ (rotate_x _ d.polyhedron)).vertices = _
  simp only [rotate_x, rotate_y, List.map_map, Function.comp_def]
  rfl

/-- C5 (amended): the projection origin is the canvas center
`(width / 2, height / 2)` and the projection formulas are
`screenX = origin.x + x * scalingFactor`, `screenY = origin.y + y * scalingFactor`,
but the scaling factor is `origin.y / 2 = height / 4` — a quarter, not half,
of the canvas height. -/
theorem projection_center_and_quarter_height (w h sf : ℝ) (v : Vec3 ℝ) :
    canvas_origin w h = (w / 2, h / 2) ∧
    scaling_factor (canvas_origin w h).2 = h / 4 ∧
    project (canvas_origin w h) v sf = (w / 2 + v.x * sf, h / 2 + v.y * sf) := by
  refine ⟨rfl, ?_, rfl⟩
  show h / 2 / 2 = h / 4
  ring

/-- C5 (counterexample): on a canvas of height 8 the render pass's scaling
factor is 2, not `8 / 2` as the claim states. -/
theorem scaling_factor_ne_half_height :
    scaling_factor (canvas_origin 100 8).2 = 2 ∧ (2 : ℝ) ≠ 8 / 2 := by
  constructor
  · show (8 : ℝ) / 2 / 2 = 2
    norm_num
  · norm_num

/-- C2 (amended): the draw list of a render pass holds the faces sorted by
the depth key (centroid z) in descending order and is a permutation of the
per-face entries; but on equal depth keys Python's `sort(reverse=True)`
compares the rest of the `(z, face, color)` tuple, ordering ties by
descending face tuple rather than by original face order (still
deterministic, since the output is a function of the input). -/
theorem draw_list_sorted_by_depth_desc (P : Polyhedron ℝ) :
    List.Pairwise (fun a b : Entry => b.1 ≤ a.1) (draw_list P) ∧
    (draw_list P).Perm (z_ordered_faces P) := by
  haveI : IsTotal Entry (fun a b => ¬ entryLt a b) := ⟨fun a b => by
    by_cases h : entryLt a b
    · exact Or.inr (entryLt_asymm h)
    · exact Or.inl h⟩
  haveI : IsTrans Entry (fun a b => ¬ entryLt a b) := ⟨fun a b c hab hbc hac => by
    rcases entryLt_trichotomy a b with h | h | h
    · exact hab h
    · exact hbc (h ▸ hac)
    · exact hbc (entryLt_trans h hac)⟩
  constructor
  · have hs := List.sorted_insertionSort (fun a b : Entry => ¬ entryLt a b) (z_ordered_faces P)
    exact List.Pairwise.imp (fun hab => le_of_not_lt (fun hlt => hab (Or.inl hlt))) hs
  · exact List.perm_insertionSort _ _

/-- C2 (counterexample): on `exMesh` the two faces have equal depth keys, the
original face order is `[0,1,2]` then `[0,2,1]`, yet the draw list puts
`[0,2,1]` first — the tie is not broken by the stable original order. -/
theorem draw_list_tie_order_not_stable :
    (z_ordered_faces exMesh).map (fun e => e.1) = [0, 0] ∧
    exMesh.faces = [[0, 1, 2], [0, 2, 1]] ∧
    (draw_list exMesh).map (fun e => e.2.1) = [[0, 2, 1], [0, 1, 2]] := by
  refine ⟨by rw [z_ordered_faces_exMesh]; rfl, rfl, ?_⟩
  have hlt : entryLt ((0 : ℝ), [0, 1, 2], ((0 : ℤ), (0 : ℤ), (65535 : ℤ)))
      ((0 : ℝ), [0, 2, 1], ((0 : ℤ), (0 : ℤ), (65535 : ℤ))) :=
    Or.inr ⟨rfl, Or.inl (by decide)⟩
  rw [draw_list, pySortDesc, z_ordered_faces_exMesh]
  simp only [List.insertionSort, List.orderedInsert_nil, List.orderedInsert]
  rw [if_neg (not_not_intro hlt)]
  rfl

/-- C4 (code bug): for a face whose first three vertices are collinear the
computed cross product is the zero vector and its norm is `0`, so the
unguarded `normal / np.linalg.norm(normal)` in the source divides zero by
zero; in Python floats this yields NaN and the subsequent `int()` raises
`ValueError`, aborting the whole render instead of giving that face a
neutral shade. -/
theorem degenerate_face_zero_norm :
    face_normal degMesh [0, 1, 2] = ⟨0, 0, 0⟩ ∧ norm3 (face_normal degMesh [0, 1, 2]) = 0 := by
  have h : face_normal degMesh [0, 1, 2] = ⟨0, 0, 0⟩ := by
    simp only [face_normal, pyIdx_012_0, pyIdx_012_1, pyIdx_012_2,
      vertexAt_degMesh_0, vertexAt_degMesh_1, vertexAt_degMesh_2]
    norm_num [cross, vec3_sub_def]
  refine ⟨h, ?_⟩
  rw [h]
  norm_num [norm3]

theorem fold_angle_mem (a : ℝ) (h0 : 0 ≤ a) (h1 : a ≤ Real.pi) :
    0 ≤ fold_angle a ∧ fold_angle a ≤ Real.pi / 2 := by
  unfold fold_angle
  split_ifs with h <;> constructor <;> linarith

theorem face_angle_mem (P : Polyhedron ℝ) (f : List ℤ) :
    0 ≤ face_angle P f ∧ face_angle P f ≤ Real.pi / 2 :=
  fold_angle_mem _ (Real.arccos_nonneg _) (Real.arccos_le_pi _)

theorem pyToInt_channel_bounds (lo hi : ℤ) (t : ℝ) (h0 : 0 ≤ t) (h1 : t ≤ 1)
    (hlo : 0 ≤ lo) (hle : lo ≤ hi) :
    lo ≤ pyToInt ((lo : ℝ) + ((hi : ℝ) - (lo : ℝ)) * t) ∧
      pyToInt ((lo : ℝ) + ((hi : ℝ) - (lo : ℝ)) * t) ≤ hi := by
  have hcast : (lo : ℝ) ≤ (hi : ℝ) := Int.cast_le.mpr hle
  have hv0 : (lo : ℝ) ≤ (lo : ℝ) + ((hi : ℝ) - (lo : ℝ)) * t := by nlinarith
  have hv1 : (lo : ℝ) + ((hi : ℝ) - (lo : ℝ)) * t ≤ (hi : ℝ) := by nlinarith
  have hlo' : (0 : ℝ) ≤ (lo : ℝ) := by exact_mod_cast hlo
  have hnn : (0 : ℝ) ≤ (lo : ℝ) + ((hi : ℝ) - (lo : ℝ)) * t := le_trans hlo' hv0
  rw [pyToInt, if_pos hnn]
  exact ⟨Int.le_floor.mpr hv0, (Int.floor_le_floor hv1).trans_eq (Int.floor_intCast hi)⟩

/-- C6: for every face with a well-defined normal, the interpolation fraction
`angle / (π/2)` lies in `[0, 1]`, and each computed color channel lies between
the corresponding `winfo_rgb` endpoint of `#00005F` and of `#0000FF`
(inclusive). -/
theorem shading_fraction_and_channels_bounded (P : Polyhedron ℝ) (f : List ℤ)
    (h : face_normal P f ≠ ⟨0, 0, 0⟩) :
    0 ≤ face_angle P f / (Real.pi / 2) ∧ face_angle P f / (Real.pi / 2) ≤ 1 ∧
    r_min ≤ (face_color P f).1 ∧ (face_color P f).1 ≤ r_max ∧
    g_min ≤ (face_color P f).2.1 ∧ (face_color P f).2.1 ≤ g_max ∧
    b_min ≤ (face_color P f).2.2 ∧ (face_color P f).2.2 ≤ b_max := by
  obtain ⟨h0, h1⟩ := face_angle_mem P f
  have hp2 : (0 : ℝ) < Real.pi / 2 := by positivity
  have hf0 : 0 ≤ face_angle P f / (Real.pi / 2) := div_nonneg h0 hp2.le
  have hf1 : face_angle P f / (Real.pi / 2) ≤ 1 := (div_le_one hp2).mpr h1
  have hr := pyToInt_channel_bounds r_min r_max (face_angle P f / (Real.pi / 2)) hf0 hf1
    (by norm_num [r_min]) (by norm_num [r_min, r_max])
  have hg := pyToInt_channel_bounds g_min g_max (face_angle P f / (Real.pi / 2)) hf0 hf1
    (by norm_num [g_min]) (by norm_num [g_min, g_max])
  have hb := pyToInt_channel_bounds b_min b_max (face_angle P f / (Real.pi / 2)) hf0 hf1
    (by norm_num [b_min]) (by norm_num [b_min, b_max])
  rw [← mul_div_assoc] at hr hg hb
  exact ⟨hf0, hf1, hr.1, hr.2, hg.1, hg.2, hb.1, hb.2⟩

/-- C6 (witness): the bounds instantiated at the face `[0, 1, 2]` of
`exMesh`, whose normal `(0, 0, 1)` is nonzero. -/
theorem shading_bounds_witness :
    face_normal exMesh [0, 1, 2] ≠ ⟨0, 0, 0⟩ ∧
    (0 ≤ face_angle exMesh [0, 1, 2] / (Real.pi / 2) ∧
      face_angle exMesh [0, 1, 2] / (Real.pi / 2) ≤ 1 ∧
      r_min ≤ (face_color exMesh [0, 1, 2]).1 ∧ (face_color exMesh [0, 1, 2]).1 ≤ r_max ∧
      g_min ≤ (face_color exMesh [0, 1, 2]).2.1 ∧ (face_color exMesh [0, 1, 2]).2.1 ≤ g_max ∧
      b_min ≤ (face_color exMesh [0, 1, 2]).2.2 ∧ (face_color exMesh [0, 1, 2]).2.2 ≤ b_max) := by
  have hne : face_normal exMesh [0, 1, 2] ≠ ⟨0, 0, 0⟩ := by
    rw [face_normal_exMesh1]
    intro hc
    have h1 : (1 : ℝ) = 0 := congrArg Vec3.z hc
    norm_num at h1
  exact ⟨hne, shading_fraction_and_channels_bounded exMesh [0, 1, 2] hne⟩

/-- C3 (counterexample): the input `1,1 / 1,0,0,0 / 1,2` declares one vertex
but its face references vertex id 2; `read_file` succeeds silently instead of
failing, storing the out-of-range 0-based index 1. -/
theorem load_accepts_out_of_range_face_id :
    read_file ["1,1", "1,0,0,0", "1,2"] = .ok ⟨1, 1, [⟨0, 0, 0⟩], [[0, 1]]⟩ := by
  simp [read_file, readVertexLines, readFaceLines, parseIntList, pySplit, splitOnChar,
    pyParseInt, pyParseFloat, parseDigits, parseDigitsAux, splitSign, pyStrip, isPySpace,
    nextLine, numpySet, data_asString, List.set]

/-- C3 (amended): `read_file` performs no range check on face vertex ids — the
spec's own malformed example `2,1 / 1,0,0,0 / 1,0,0,0 / 1,2` loads without
error into a mesh with faces `[(0, 1)]`. -/
theorem load_example_input_silently_succeeds :
    read_file ["2,1", "1,0,0,0", "1,0,0,0", "1,2"] =
      .ok ⟨2, 1, [⟨0, 0, 0⟩, ⟨0, 0, 0⟩], [[0, 1]]⟩ := by
  simp [read_file, readVertexLines, readFaceLines, parseIntList, pySplit, splitOnChar,
    pyParseInt, pyParseFloat, parseDigits, parseDigitsAux, splitSign, pyStrip, isPySpace,
    nextLine, numpySet, data_asString, List.set]

/-- C7 (counterexample): a face record with only two vertex ids is accepted by
`read_file` — the `≥ 3` requirement is not enforced at load time. -/
theorem load_accepts_two_id_face :
    read_file ["3,1", "1,0,0,0", "2,1,0,0", "3,0,1,0", "1,2"] =
      .ok ⟨3, 1, [⟨0, 0, 0⟩, ⟨1, 0, 0⟩, ⟨0, 1, 0⟩], [[0, 1]]⟩ := by
  simp [read_file, readVertexLines, readFaceLines, parseIntList, pySplit, splitOnChar,
    pyParseInt, pyParseFloat, parseDigits, parseDigitsAux, splitSign, pyStrip, isPySpace,
    nextLine, numpySet, data_asString, List.set]

/-- C7 (amended): `read_file` accepts face records with any number of
parseable ids — even a single id — storing them as given; the `≥ 3`
requirement only bites later when the render pass reads `face[2]`. -/
theorem load_accepts_one_id_face :
    read_file ["3,1", "1,0,0,0", "2,1,0,0", "3,0,1,0", "2"] =
      .ok ⟨3, 1, [⟨0, 0, 0⟩, ⟨1, 0, 0⟩, ⟨0, 1, 0⟩], [[1]]⟩ := by
  simp [read_file, readVertexLines, readFaceLines, parseIntList, pySplit, splitOnChar,
    pyParseInt, pyParseFloat, parseDigits, parseDigitsAux, splitSign, pyStrip, isPySpace,
    nextLine, numpySet, data_asString, List.set]

/-- C10 (counterexample): with one declared vertex, the vertex record id `-1`
(equal to `-vertex_count`) addresses numpy row `-2`, which is out of range —
`read_file` fails with `IndexError` rather than accepting the record. -/
theorem load_rejects_id_neg_vertex_count :
    read_file ["1,0", "-1,0,0,0"] = .error .indexError := by
  simp [read_file, readVertexLines, readFaceLines, parseIntList, pySplit, splitOnChar,
    pyParseInt, pyParseFloat, parseDigits, parseDigitsAux, splitSign, pyStrip, isPySpace,
    nextLine, numpySet, data_asString, List.set]

/-- C10 (amended): vertex record ids `0` down to `1 - vertex_count` are
silently accepted: id 0 writes the last row and id `1 - vertex_count` the
first (slot `vertex_count + id - 1`), as the concrete two-vertex load shows;
in general a negative in-range numpy row index `i` writes the slot
`length + i`, i.e. position `-i` counted from the end. -/
theorem load_stores_nonpositive_ids_from_end :
    read_file ["2,0", "0,1,2,3", "-1,4,5,6"] =
      .ok ⟨2, 0, [⟨4, 5, 6⟩, ⟨1, 2, 3⟩], []⟩ ∧
    ∀ (l : List (Vec3 ℚ)) (i : ℤ) (v : Vec3 ℚ), -(l.length : ℤ) ≤ i → i < 0 →
      numpySet l i v = some (l.set ((l.length : ℤ) + i).toNat v) := by
  constructor
  · simp [read_file, readVertexLines, readFaceLines, parseIntList, pySplit, splitOnChar,
      pyParseInt, pyParseFloat, parseDigits, parseDigitsAux, splitSign, pyStrip, isPySpace,
      nextLine, numpySet, data_asString, List.set]
  · intro l i v h1 h2
    rw [numpySet, if_neg (by omega), if_pos ⟨h1, h2⟩]

/-- C10 (witness): the negative-index write instantiated on a one-element
vertex array at row `-1`, which overwrites the last (only) slot. -/
theorem load_stores_nonpositive_ids_from_end_witness :
    numpySet ([⟨1, 2, 3⟩] : List (Vec3 ℚ)) (-1) ⟨4, 5, 6⟩ = some [⟨4, 5, 6⟩] := by
  have h := load_stores_nonpositive_ids_from_end.2 [⟨1, 2, 3⟩] (-1) ⟨4, 5, 6⟩
    (by norm_num) (by norm_num)
  simpa using h

end PolyVis
